import Mathlib

/-
Verification of the OpenCL vector-addition benchmark `example01.cpp`.

The program is one linear `main` routine plus a host helper
`timeAddVectorsCPU`.  We embed, faithfully to the source:

  * the OpenCL kernels `add` and `looped_add` (device buffers are modelled
    as total functions `Nat → Int`; a C `for` loop of element-wise stores
    becomes the recursion `addLoopAux`; an NDRange launch of `Nthreads`
    work-items becomes a fold over the work-item IDs, which is adequate
    because the work-items write pairwise disjoint index ranges);
  * the host arrays built in `main` and in `timeAddVectorsCPU`;
  * the control flow of `main` up to the first computation (platform
    check, device check, the unguarded `all_devices[1]` access, kernel
    build check) as a function to an exit outcome;
  * the sequence of buffer allocations, buffer writes, kernel launches
    and buffer reads each GPU path issues, as an explicit trace;
  * the final report (ratio computation and chosen message).

All sizes and indices in the source are C `int`s that are nonnegative and
far below 2^31 in every reachable state, so they are embedded as `Nat`;
`Nat` division coincides with C integer division on nonnegative operands.
Vector elements are embedded as `Int` (no sum in the program approaches
2^31, so wrap-around never occurs).  Values read from the device
`constants` buffer are converted with `Int.toNat`; a nonpositive bound
makes every loop of the kernel empty, exactly as in the C source where
the loop condition fails immediately.
-/

namespace Example01

/-- One C loop `for (j = a; j < a + fuel; j++) v3[j] = v1[j] + v2[j];`,
written with an explicit fuel (the number of remaining iterations). -/
def addLoopAux (v1 v2 : Nat → Int) : Nat → Nat → (Nat → Int) → (Nat → Int)
  | 0, _, v3 => v3
  | fuel+1, j, v3 => addLoopAux v1 v2 fuel (j+1) (fun x => if x = j then v1 j + v2 j else v3 x)

/-- Kernel line `ratio = (n / Nthreads);` — elements per work-item. -/
def ratio (n Nthreads : Nat) : Nat := n / Nthreads

/-- Kernel line `start = ratio * ID;`. -/
def thread_start (n Nthreads ID : Nat) : Nat := ratio n Nthreads * ID

/-- Kernel line `stop = ratio * (ID+1);`. -/
def thread_stop (n Nthreads ID : Nat) : Nat := ratio n Nthreads * (ID + 1)

/-- Membership of index `j` in the index range of work-item `ID`. -/
def inThreadRange (n Nthreads ID j : Nat) : Prop :=
  thread_start n Nthreads ID ≤ j ∧ j < thread_stop n Nthreads ID

instance (n Nthreads ID j : Nat) : Decidable (inThreadRange n Nthreads ID j) :=
  inferInstanceAs (Decidable (_ ∧ _))

/-- The body of the `add` kernel for one work-item: it reads
`n = constants[0]`, computes its index range, and stores
`v3[i] = v1[i] + v2[i]` for `i` in `[start, stop)`. -/
def add_thread (ID Nthreads : Nat) (v1 v2 v3 : Nat → Int) (constants : List Int) : Nat → Int :=
  let n : Nat := (constants.getD 0 0).toNat
  addLoopAux v1 v2 (thread_stop n Nthreads ID - thread_start n Nthreads ID)
    (thread_start n Nthreads ID) v3

/-- The body of the `looped_add` kernel for one work-item: as `add_thread`,
but additionally reading `k = constants[1]` and repeating the inner store
loop `k` times. -/
def looped_add_thread (ID Nthreads : Nat) (v1 v2 v3 : Nat → Int) (constants : List Int) :
    Nat → Int :=
  let n : Nat := (constants.getD 0 0).toNat
  let k : Nat := (constants.getD 1 0).toNat
  (fun C => addLoopAux v1 v2 (thread_stop n Nthreads ID - thread_start n Nthreads ID)
    (thread_start n Nthreads ID) C)^[k] v3

/-- An NDRange launch over global size `Nthreads`: every work-item
`0, …, Nthreads-1` runs `step` on the output buffer.  The work-items of
both kernels write pairwise disjoint ranges, so the sequential order here
is observationally equal to any device schedule. -/
def run_kernel (Nthreads : Nat) (step : Nat → (Nat → Int) → (Nat → Int)) (v3 : Nat → Int) :
    Nat → Int :=
  (List.range Nthreads).foldl (fun v ID => step ID v) v3

/-- A launch of the `add` kernel with global size `Nthreads`. -/
def run_add (Nthreads : Nat) (v1 v2 v3 : Nat → Int) (constants : List Int) : Nat → Int :=
  run_kernel Nthreads (fun ID v => add_thread ID Nthreads v1 v2 v constants) v3

/-- A launch of the `looped_add` kernel with global size `Nthreads`. -/
def run_looped_add (Nthreads : Nat) (v1 v2 v3 : Nat → Int) (constants : List Int) : Nat → Int :=
  run_kernel Nthreads (fun ID v => looped_add_thread ID Nthreads v1 v2 v constants) v3

/-! ### Host-side arrays -/

/-- `timeAddVectorsCPU` builds `A[i] = i`. -/
def cpuA : Nat → Int := fun i => (i : Int)

/-- `timeAddVectorsCPU` builds `B[i] = n - i`. -/
def cpuB (n : Nat) : Nat → Int := fun i => (n : Int) - (i : Int)

/-- The array `C` left by `timeAddVectorsCPU n k`: starting from the
zero-initialised array, the nested loops perform `k` passes of
`for (j = 0; j < n; j++) C[j] = A[j] + B[j];`.  (The source function
returns only the elapsed time; this is the array it computes.) -/
def timeAddVectorsCPU_array (n k : Nat) : Nat → Int :=
  (fun C => addLoopAux cpuA (cpuB n) n 0 C)^[k] (fun _ => 0)

/-- `main`: `n = 100000;` — size of vectors. -/
def n_main : Nat := 100000

/-- `main`: `k = 1000;` — number of loop iterations. -/
def k_main : Nat := 1000

/-- `main`: `Nthreads = 10;` — the NDRange global size of every launch. -/
def Nthreads_main : Nat := 10

/-- `main`: `int constants[2] = {n, k};`. -/
def constantsArr : List Int := [(n_main : Int), (k_main : Int)]

/-- `main` builds `A[i] = i`. -/
def mainA : Nat → Int := fun i => (i : Int)

/-- `main` builds `B[i] = n - i - 1`. -/
def mainB : Nat → Int := fun i => (n_main : Int) - (i : Int) - 1

/-- `main` builds `C[i] = 0`. -/
def mainC0 : Nat → Int := fun _ => 0

/-- Contents of `buffer_C` after GPU version 1: one `looped_add` launch.
The device output buffer is never written by the host, so its initial
contents `Cinit` are arbitrary. -/
def gpuC_version1 (Cinit : Nat → Int) : Nat → Int :=
  run_looped_add Nthreads_main mainA mainB Cinit constantsArr

/-- Contents of `buffer_C2` after GPU version 2: `k` iterations, each
re-uploading `A`, `B`, `constants` (same contents every time) and
launching `add` once on the same buffers. -/
def gpuC_version2 (Cinit : Nat → Int) : Nat → Int :=
  (fun C => run_add Nthreads_main mainA mainB C constantsArr)^[k_main] Cinit

/-! ### Control flow of `main` up to the computation -/

/-- How a run of `main` can end, as far as the host control flow is
concerned: an `exit(1)` after printing a message, a normal `return 0`,
or the undefined behaviour of an out-of-bounds `all_devices[1]` access. -/
inductive ExitOutcome
  | exited (code : Nat) (msg : String)
  | returned (code : Nat)
  | undefinedBehavior
deriving DecidableEq

/-- Message printed when `all_platforms.size() == 0`. -/
def platformMsg : String := " No platforms found. Check OpenCL installation!\n"

/-- Message printed when `all_devices.size() == 0`. -/
def deviceMsg : String := " No devices found. Check OpenCL installation!\n"

/-- The error-handling skeleton of `main`: platform check, device check,
the unguarded `all_devices[1]` access, kernel-build check, and otherwise
the fall-through to `return 0`.  The environment is abstracted as the
platform list, the device list, whether `program.build` succeeds, and the
build log that would be printed on failure. -/
def mainControl (platforms devices : List Nat) (buildOk : Bool) (buildLog : String) :
    ExitOutcome :=
  if platforms.length = 0 then .exited 1 platformMsg
  else if devices.length = 0 then .exited 1 deviceMsg
  else
    match devices.get? 1 with
    | none => .undefinedBehavior
    | some _ =>
      if buildOk = false then .exited 1 ("Error building: " ++ buildLog)
      else .returned 0

/-- The guard the source places before device selection:
`if (all_devices.size() == 0) { ... exit(1); }` passed. -/
def deviceGuardPassed (devices : List Nat) : Prop := ¬ devices.length = 0

instance (devices : List Nat) : Decidable (deviceGuardPassed devices) :=
  inferInstanceAs (Decidable (¬ _))

/-! ### The sequence of buffer and queue operations of the two GPU paths -/

/-- One host-side OpenCL operation: a `cl::Buffer` allocation, a
`queue.enqueueWriteBuffer` with its blocking flag, a kernel launch
through a `cl::KernelFunctor` (which has no blocking flag), or a
`queue.enqueueReadBuffer` with its blocking flag. -/
inductive GpuOp
  | alloc (buf : String)
  | write (buf : String) (blocking : Bool)
  | launch (kern : String)
  | read (buf : String) (blocking : Bool)
deriving DecidableEq

/-- The blocking flag an operation passes to the queue, when the API call
has one: writes and reads take one (the source passes `CL_TRUE`), buffer
allocation and kernel launches have none. -/
def blockingFlag : GpuOp → Option Bool
  | .alloc _ => none
  | .write _ b => some b
  | .launch _ => none
  | .read _ b => some b

/-- Whether the operation is one the host pushes onto the command queue
(write, launch, read) as opposed to a buffer allocation. -/
def isQueueOp : GpuOp → Bool
  | .alloc _ => false
  | .write _ _ => true
  | .launch _ => true
  | .read _ _ => true

/-- Number of occurrences of an operation in a trace. -/
def countOp (op : GpuOp) : List GpuOp → Nat
  | [] => 0
  | o :: rest => (if o = op then 1 else 0) + countOp op rest

/-- Every blocking flag an operation carries is `CL_TRUE`: writes and
reads must have `blocking = true`; allocations and launches carry no flag
and pass vacuously. -/
def flagsOk : GpuOp → Bool
  | .alloc _ => true
  | .write _ b => b
  | .launch _ => true
  | .read _ b => b

/-- GPU version 1 (lines 131-145): allocate the four buffers, write `A`,
`B`, `constants` once, launch `looped_add` once, read `C` back. -/
def gpuTrace1 : List GpuOp :=
  [.alloc "buffer_A", .alloc "buffer_B", .alloc "buffer_C", .alloc "buffer_constants",
   .write "buffer_A" true, .write "buffer_B" true, .write "buffer_constants" true,
   .launch "looped_add",
   .read "buffer_C" true]

/-- The body of one iteration of GPU version 2's `for` loop (lines
156-162): re-upload `A`, `B`, `constants`, launch `add`. -/
def gpuIter2 : List GpuOp :=
  [.write "buffer_A2" true, .write "buffer_B2" true, .write "buffer_constants2" true,
   .launch "add"]

/-- GPU version 2 (lines 152-163): allocate the four buffers once, then
`k` iterations of `gpuIter2`, then read `C` back once. -/
def gpuTrace2 (k : Nat) : List GpuOp :=
  [.alloc "buffer_A2", .alloc "buffer_B2", .alloc "buffer_C2", .alloc "buffer_constants2"]
    ++ (List.replicate k gpuIter2).flatten ++ [.read "buffer_C2" true]

/-! ### The final report -/

/-- One item sent to `std::cout`: a string literal or a numeric value.
Times and ratios are modelled as rationals (the branch structure of the
report does not depend on rounding). -/
inductive OutItem
  | str (s : String)
  | num (q : ℚ)
deriving DecidableEq

/-- The report for one GPU version (lines 167-175 and 177-185): the
banner, the CPU time, this version's GPU time, and — according to the
sign of `time_ratio - 1` — the ratio followed by `" times faster!"` or
by `" times slower :("`. -/
def reportVariant (banner : String) (CPUtime GPUtime : ℚ) : List OutItem :=
  let time_ratio := CPUtime / GPUtime
  [.str banner, .str "CPU time: ", .num CPUtime, .str "GPU time: ", .num GPUtime,
   .str "GPU is "] ++
    (if time_ratio > 1 then [.num time_ratio, .str " times faster!"]
     else [.num time_ratio, .str " times slower :("])

/-- The whole comparison printout (lines 166-185). -/
def report (CPUtime GPUtime1 GPUtime2 : ℚ) : List OutItem :=
  reportVariant "VERSION 1 -----------" CPUtime GPUtime1 ++
    reportVariant "\nVERSION 2 -----------" CPUtime GPUtime2

end Example01

namespace Example01

/-! ### Basic lemmas about the loop and launch semantics -/

theorem addLoopAux_apply (v1 v2 : Nat → Int) (fuel : Nat) :
    ∀ (a : Nat) (v3 : Nat → Int) (x : Nat),
      addLoopAux v1 v2 fuel a v3 x =
        if a ≤ x ∧ x < a + fuel then v1 x + v2 x else v3 x := by
  induction fuel with
  | zero =>
    intro a v3 x
    simp [addLoopAux]
    omega
  | succ m ih =>
    intro a v3 x
    rw [addLoopAux, ih]
    by_cases hx : x = a
    · by_cases h1 : a + 1 ≤ x ∧ x < a + 1 + m <;> simp_all
    · by_cases h1 : a + 1 ≤ x ∧ x < a + 1 + m
      · simp [h1]
        omega
      · simp [h1, hx]
        omega

theorem thread_stop_sub_start (n Nthreads ID : Nat) :
    thread_stop n Nthreads ID - thread_start n Nthreads ID = ratio n Nthreads := by
  simp [thread_stop, thread_start, Nat.mul_succ]

theorem add_thread_apply (ID Nthreads : Nat) (v1 v2 v3 : Nat → Int) (c : List Int) (x : Nat) :
    add_thread ID Nthreads v1 v2 v3 c x =
      if thread_start ((c.getD 0 0).toNat) Nthreads ID ≤ x ∧
          x < thread_stop ((c.getD 0 0).toNat) Nthreads ID then
        v1 x + v2 x
      else v3 x := by
  have h := addLoopAux_apply v1 v2
    (thread_stop ((c.getD 0 0).toNat) Nthreads ID - thread_start ((c.getD 0 0).toNat) Nthreads ID)
    (thread_start ((c.getD 0 0).toNat) Nthreads ID) v3 x
  have hr : thread_start ((c.getD 0 0).toNat) Nthreads ID +
      (thread_stop ((c.getD 0 0).toNat) Nthreads ID -
        thread_start ((c.getD 0 0).toNat) Nthreads ID) =
      thread_stop ((c.getD 0 0).toNat) Nthreads ID := by
    have := thread_stop_sub_start ((c.getD 0 0).toNat) Nthreads ID
    simp [thread_stop, thread_start, Nat.mul_succ] at this ⊢
  rw [add_thread]
  rw [h, hr]

theorem if_range_merge (p q x : Nat) (hpq : p ≤ q) (s t : Int) :
    (if p ≤ x ∧ x < q then s else if x < p then s else t) = if x < q then s else t := by
  split_ifs <;> first | rfl | (exfalso; omega)

theorem run_add_partial (Nthreads : Nat) (v1 v2 : Nat → Int) (c : List Int) (t : Nat) :
    ∀ (v3 : Nat → Int) (x : Nat),
      (List.range t).foldl (fun v ID => add_thread ID Nthreads v1 v2 v c) v3 x =
        if x < ratio ((c.getD 0 0).toNat) Nthreads * t then v1 x + v2 x else v3 x := by
  induction t with
  | zero => simp
  | succ m ih =>
    intro v3 x
    rw [List.range_succ, List.foldl_append, List.foldl_cons, List.foldl_nil, add_thread_apply]
    have hfold : ∀ y : Nat,
        (List.range m).foldl (fun v ID => add_thread ID Nthreads v1 v2 v c) v3 y =
          if y < ratio ((c.getD 0 0).toNat) Nthreads * m then v1 y + v2 y else v3 y :=
      ih v3
    rw [hfold]
    show (if thread_start ((c.getD 0 0).toNat) Nthreads m ≤ x ∧
          x < thread_stop ((c.getD 0 0).toNat) Nthreads m then v1 x + v2 x
        else if x < ratio ((c.getD 0 0).toNat) Nthreads * m then v1 x + v2 x else v3 x) =
      if x < ratio ((c.getD 0 0).toNat) Nthreads * (m + 1) then v1 x + v2 x else v3 x
    simp only [thread_start, thread_stop]
    exact if_range_merge _ _ x (Nat.mul_le_mul_left _ (Nat.le_succ m)) _ _

theorem run_add_apply (Nthreads : Nat) (v1 v2 v3 : Nat → Int) (c : List Int) (x : Nat) :
    run_add Nthreads v1 v2 v3 c x =
      if x < ratio ((c.getD 0 0).toNat) Nthreads * Nthreads then v1 x + v2 x else v3 x :=
  run_add_partial Nthreads v1 v2 c Nthreads v3 x

theorem addLoopAux_idem (v1 v2 : Nat → Int) (fuel a : Nat) (v3 : Nat → Int) :
    addLoopAux v1 v2 fuel a (addLoopAux v1 v2 fuel a v3) = addLoopAux v1 v2 fuel a v3 := by
  funext x
  simp only [addLoopAux_apply]
  split_ifs <;> rfl

theorem iterate_succ_eq_self_of_idem {α : Type} (f : α → α) (h : ∀ v, f (f v) = f v) :
    ∀ (k : Nat) (v : α), f^[k+1] v = f v := by
  intro k
  induction k with
  | zero => intro v; simp
  | succ m ih => intro v; rw [Function.iterate_succ_apply', ih, h]

theorem looped_add_thread_eq_add_thread (ID Nthreads : Nat) (v1 v2 v3 : Nat → Int)
    (c : List Int) (hk : 1 ≤ (c.getD 1 0).toNat) :
    looped_add_thread ID Nthreads v1 v2 v3 c = add_thread ID Nthreads v1 v2 v3 c := by
  obtain ⟨m, hm⟩ : ∃ m, (c.getD 1 0).toNat = m + 1 := ⟨(c.getD 1 0).toNat - 1, by omega⟩
  show (fun C => addLoopAux v1 v2 _ _ C)^[(c.getD 1 0).toNat] v3 = _
  rw [hm]
  exact iterate_succ_eq_self_of_idem _ (fun v => addLoopAux_idem v1 v2 _ _ v) m v3

theorem run_looped_add_eq_run_add (Nthreads : Nat) (v1 v2 v3 : Nat → Int) (c : List Int)
    (hk : 1 ≤ (c.getD 1 0).toNat) :
    run_looped_add Nthreads v1 v2 v3 c = run_add Nthreads v1 v2 v3 c := by
  have hfun : (fun (v : Nat → Int) (ID : Nat) => looped_add_thread ID Nthreads v1 v2 v c) =
      fun v ID => add_thread ID Nthreads v1 v2 v c := by
    funext v ID
    exact looped_add_thread_eq_add_thread ID Nthreads v1 v2 v c hk
  show run_kernel Nthreads (fun ID v => looped_add_thread ID Nthreads v1 v2 v c) v3 = _
  show (List.range Nthreads).foldl
      (fun v ID => looped_add_thread ID Nthreads v1 v2 v c) v3 = _
  rw [show (fun (v : Nat → Int) (ID : Nat) => looped_add_thread ID Nthreads v1 v2 v c) =
    fun v ID => add_thread ID Nthreads v1 v2 v c from hfun]
  rfl

theorem run_add_idem (Nthreads : Nat) (v1 v2 v3 : Nat → Int) (c : List Int) :
    run_add Nthreads v1 v2 (run_add Nthreads v1 v2 v3 c) c = run_add Nthreads v1 v2 v3 c := by
  funext x
  simp only [run_add_apply]
  split_ifs <;> rfl

/-! ### Closed forms of the arrays the program computes -/

theorem timeAddVectorsCPU_array_apply (n k : Nat) (hk : 1 ≤ k) (j : Nat) :
    timeAddVectorsCPU_array n k j = if j < n then cpuA j + cpuB n j else 0 := by
  obtain ⟨m, hm⟩ : ∃ m, k = m + 1 := ⟨k - 1, by omega⟩
  rw [timeAddVectorsCPU_array, hm,
    iterate_succ_eq_self_of_idem _ (fun v => addLoopAux_idem cpuA (cpuB n) n 0 v) m,
    addLoopAux_apply]
  simp

theorem constants_ratio_mul : ratio ((constantsArr.getD 0 0).toNat) Nthreads_main *
    Nthreads_main = 100000 := by decide

theorem gpuC_version1_apply (Cinit : Nat → Int) (x : Nat) :
    gpuC_version1 Cinit x = if x < 100000 then mainA x + mainB x else Cinit x := by
  rw [gpuC_version1, run_looped_add_eq_run_add _ _ _ _ _ (by decide), run_add_apply,
    constants_ratio_mul]

theorem gpuC_version2_apply (Cinit : Nat → Int) (x : Nat) :
    gpuC_version2 Cinit x = if x < 100000 then mainA x + mainB x else Cinit x := by
  rw [gpuC_version2, show k_main = 999 + 1 from rfl,
    iterate_succ_eq_self_of_idem _
      (fun v => run_add_idem Nthreads_main mainA mainB v constantsArr) 999,
    run_add_apply, constants_ratio_mul]

/-! ### Claims -/

/-- C1, counterexample: the output array of the GPU paths does NOT match
the array computed by `timeAddVectorsCPU` on vectors of the same length:
at index 0 the GPU array holds 99999 while the CPU array holds 100000
(the two routines construct different `B` vectors). -/
theorem c1_gpu_cpu_mismatch :
    gpuC_version1 mainC0 0 ≠ timeAddVectorsCPU_array n_main k_main 0 := by
  have h1 : gpuC_version1 mainC0 0 = 99999 := by
    rw [gpuC_version1_apply]
    decide
  have h2 : timeAddVectorsCPU_array n_main k_main 0 = 100000 := by
    rw [timeAddVectorsCPU_array_apply n_main k_main (by decide) 0]
    decide
  rw [h1, h2]
  decide

/-- C1, amended: for the integer inputs the program constructs, each GPU
variant's output is the elementwise sum of `main`'s own vectors, but it
differs from the CPU array of `timeAddVectorsCPU` at every index:
`timeAddVectorsCPU` builds `B[i] = n - i`, so its array is `n` everywhere
in `[0, n)`, while `main` builds `B[i] = n - i - 1`, so both GPU arrays
are `n - 1` everywhere in `[0, n)` — one less than the CPU array at each
element. -/
theorem c1_gpu_offset_from_cpu (i : Nat) (hi : i < n_main) (Cinit : Nat → Int) :
    timeAddVectorsCPU_array n_main k_main i = (n_main : Int) ∧
    gpuC_version1 Cinit i = (n_main : Int) - 1 ∧
    gpuC_version2 Cinit i = (n_main : Int) - 1 ∧
    gpuC_version1 Cinit i = timeAddVectorsCPU_array n_main k_main i - 1 ∧
    gpuC_version2 Cinit i = timeAddVectorsCPU_array n_main k_main i - 1 := by
  have hc := timeAddVectorsCPU_array_apply n_main k_main (by decide) i
  have h1 := gpuC_version1_apply Cinit i
  have h2 := gpuC_version2_apply Cinit i
  rw [if_pos hi] at hc
  rw [if_pos (show i < 100000 from hi)] at h1 h2
  simp only [cpuA, cpuB, mainA, mainB, n_main] at hc h1 h2 ⊢
  refine ⟨?_, ?_, ?_, ?_, ?_⟩ <;> simp only [hc, h1, h2] <;> omega

/-- C1, amended, witness at index 0. -/
theorem c1_gpu_offset_from_cpu_witness :
    0 < n_main ∧
      (timeAddVectorsCPU_array n_main k_main 0 = (n_main : Int) ∧
       gpuC_version1 mainC0 0 = (n_main : Int) - 1 ∧
       gpuC_version2 mainC0 0 = (n_main : Int) - 1 ∧
       gpuC_version1 mainC0 0 = timeAddVectorsCPU_array n_main k_main 0 - 1 ∧
       gpuC_version2 mainC0 0 = timeAddVectorsCPU_array n_main k_main 0 - 1) :=
  ⟨by decide, c1_gpu_offset_from_cpu 0 (by decide) mainC0⟩

/-- C2: under the program's launch configuration (`n = 100000`,
`Nthreads = 10`, `k = 1000`, constants buffer `{n, k}`), after each GPU
path executes, the output vector satisfies `C[i] = A[i] + B[i]` for every
`i` in `[0, n)`, for both the `looped_add` path (version 1) and the `add`
path (version 2), whatever the initial contents of the output buffer. -/
theorem c2_kernels_compute_elementwise_sum (i : Nat) (hi : i < n_main) (Cinit : Nat → Int) :
    gpuC_version1 Cinit i = mainA i + mainB i ∧
    gpuC_version2 Cinit i = mainA i + mainB i := by
  have h1 := gpuC_version1_apply Cinit i
  have h2 := gpuC_version2_apply Cinit i
  rw [if_pos (show i < 100000 from hi)] at h1 h2
  exact ⟨h1, h2⟩

/-- C2, witness at index 0 with the zero-initialised output buffer. -/
theorem c2_kernels_compute_elementwise_sum_witness :
    0 < n_main ∧
      (gpuC_version1 mainC0 0 = mainA 0 + mainB 0 ∧
       gpuC_version2 mainC0 0 = mainA 0 + mainB 0) :=
  ⟨by decide, c2_kernels_compute_elementwise_sum 0 (by decide) mainC0⟩

/-- C4, counterexample: a run with one platform, exactly one device and a
successful build falls in none of the claim's three error cases, so the
claim says it returns exit code 0 — but the program never reaches
`return 0`: having passed the emptiness guard it performs the unguarded
out-of-bounds access `all_devices[1]`, which has no defined outcome. -/
theorem c4_single_device_not_return_zero :
    mainControl [1] [1] true "" = ExitOutcome.undefinedBehavior ∧
    mainControl [1] [1] true "" ≠ ExitOutcome.returned 0 := by
  decide

/-- C4, amended: provided the device list is empty or has at least two
entries (so that the unguarded `all_devices[1]` access, when reached, is
in bounds), the program exits with code 1 and an error message exactly
when no platform is found, no device is found, or the kernel build
fails — in that order of checks — and returns exit code 0 in every other
run; with exactly one device the behaviour is undefined instead. -/
theorem c4_exit_code_spec (platforms devices : List Nat) (buildOk : Bool) (buildLog : String)
    (hd : devices = [] ∨ 2 ≤ devices.length) :
    mainControl platforms devices buildOk buildLog =
      if platforms.length = 0 then ExitOutcome.exited 1 platformMsg
      else if devices.length = 0 then ExitOutcome.exited 1 deviceMsg
      else if buildOk = false then ExitOutcome.exited 1 ("Error building: " ++ buildLog)
      else ExitOutcome.returned 0 := by
  rcases hd with h | h
  · subst h
    by_cases hp : platforms.length = 0 <;> simp [mainControl, hp]
  · rcases devices with _ | ⟨d0, _ | ⟨d1, tl⟩⟩
    · simp at h
    · simp at h
    · by_cases hp : platforms.length = 0 <;> simp [mainControl, hp]

/-- C4, amended, witness: one platform, two devices, successful build. -/
theorem c4_exit_code_spec_witness :
    (([1, 2] : List Nat) = [] ∨ 2 ≤ ([1, 2] : List Nat).length) ∧
      mainControl [5] [1, 2] true "log" =
        (if ([5] : List Nat).length = 0 then ExitOutcome.exited 1 platformMsg
         else if ([1, 2] : List Nat).length = 0 then ExitOutcome.exited 1 deviceMsg
         else if (true : Bool) = false then ExitOutcome.exited 1 ("Error building: " ++ "log")
         else ExitOutcome.returned 0) :=
  ⟨Or.inr (by decide), c4_exit_code_spec [5] [1, 2] true "log" (Or.inr (by decide))⟩

/-- C6: the only device-selection guard the source has is
`if (all_devices.size() == 0) exit(1)`.  That guard passes on a
one-element device list, yet `all_devices[1]` is then out of bounds
(`get? 1 = none`) — the guard passing does not imply the list has at
least two elements, and `main`'s control flow reaches an undefined
out-of-bounds read on any machine exposing exactly one OpenCL device. -/
theorem c6_guard_allows_out_of_bounds :
    deviceGuardPassed [7] ∧
    ([7] : List Nat).get? 1 = none ∧
    ¬ 2 ≤ ([7] : List Nat).length ∧
    mainControl [1] [7] true "" = ExitOutcome.undefinedBehavior := by
  decide

/-- C7: for every `k ≥ 1`, all input vectors `v1`, `v2`, every initial
output buffer `v3`, every constants buffer `{n, k}` and every launch
global size `Nthreads`, the `looped_add` kernel produces exactly the same
output vector as a single launch of the `add` kernel: repeating the
elementwise store `k` times changes nothing after the first pass. -/
theorem c7_looped_add_equiv_add (n : Int) (k : Nat) (hk : 1 ≤ k) (Nthreads : Nat)
    (v1 v2 v3 : Nat → Int) :
    run_looped_add Nthreads v1 v2 v3 [n, (k : Int)] =
      run_add Nthreads v1 v2 v3 [n, (k : Int)] := by
  apply run_looped_add_eq_run_add
  simpa using hk

theorem range_cover_iff (n Nthreads : Nat) (j : Nat) :
    (∃ ID, ID < Nthreads ∧ inThreadRange n Nthreads ID j) ↔
      j < ratio n Nthreads * Nthreads := by
  constructor
  · rintro ⟨ID, hID, h1, h2⟩
    simp only [inThreadRange, thread_start, thread_stop] at h1 h2
    exact Nat.lt_of_lt_of_le h2 (Nat.mul_le_mul_left _ hID)
  · intro hj
    have hr : ratio n Nthreads ≠ 0 := by
      rintro h
      rw [h, Nat.zero_mul] at hj
      omega
    have hrpos : 0 < ratio n Nthreads := Nat.pos_of_ne_zero hr
    refine ⟨j / ratio n Nthreads, ?_, ?_, ?_⟩
    · rw [Nat.div_lt_iff_lt_mul hrpos, Nat.mul_comm]
      exact hj
    · simpa [inThreadRange, thread_start, Nat.mul_comm] using
        Nat.div_mul_le_self j (ratio n Nthreads)
    · have h3 : ratio n Nthreads * (j / ratio n Nthreads) + j % ratio n Nthreads = j :=
        Nat.div_add_mod j (ratio n Nthreads)
      have h4 : j % ratio n Nthreads < ratio n Nthreads := Nat.mod_lt _ hrpos
      have h5 : ratio n Nthreads * (j / ratio n Nthreads) + j % ratio n Nthreads <
          ratio n Nthreads * (j / ratio n Nthreads) + ratio n Nthreads :=
        Nat.add_lt_add_left h4 _
      rw [h3] at h5
      simpa [inThreadRange, thread_stop, Nat.mul_succ] using h5

/-- C3, counterexample: with `n = 3` and `Nthreads = 2` (both at least 1)
the index ranges of the two work-items do not cover `[0, n)`: the index
`2` lies in `[0, 3)` but in no work-item's range, since
`ratio = 3 / 2 = 1` and the union of the ranges is `[0, 2)`. -/
theorem c3_coverage_fails_when_not_divisible :
    1 ≤ 3 ∧ 1 ≤ 2 ∧ 2 < 3 ∧ ¬ ∃ ID, ID < 2 ∧ inThreadRange 3 2 ID 2 := by
  decide

/-- C3, amended: for every `n ≥ 1` and `Nthreads ≥ 1` the per-work-item
index ranges `[ratio * ID, ratio * (ID+1))` with `ratio = n / Nthreads`
are pairwise disjoint and all of size `n / Nthreads`, and their union is
exactly `[0, (n / Nthreads) * Nthreads)` — which equals `[0, n)` exactly
when `Nthreads` divides `n` (as it does in the program, where
`Nthreads = 10` divides `n = 100000`); otherwise the trailing
`n mod Nthreads` indices are covered by no work-item. -/
theorem c3_partition_amended (n Nthreads : Nat) (_hn : 1 ≤ n) (_hNt : 1 ≤ Nthreads) :
    (∀ a b, a < Nthreads → b < Nthreads → a ≠ b →
      ∀ j, ¬ (inThreadRange n Nthreads a j ∧ inThreadRange n Nthreads b j)) ∧
    (∀ ID, thread_stop n Nthreads ID - thread_start n Nthreads ID = ratio n Nthreads) ∧
    (∀ j, (∃ ID, ID < Nthreads ∧ inThreadRange n Nthreads ID j) ↔
      j < ratio n Nthreads * Nthreads) ∧
    (Nthreads ∣ n →
      ∀ j, (∃ ID, ID < Nthreads ∧ inThreadRange n Nthreads ID j) ↔ j < n) := by
  have hdisj : ∀ a b, a < b →
      ∀ j, ¬ (inThreadRange n Nthreads a j ∧ inThreadRange n Nthreads b j) := by
    rintro a b hab j ⟨⟨_, ha2⟩, ⟨hb1, _⟩⟩
    simp only [thread_start, thread_stop] at ha2 hb1
    have hle : ratio n Nthreads * (a + 1) ≤ ratio n Nthreads * b :=
      Nat.mul_le_mul_left _ hab
    exact Nat.lt_irrefl j (Nat.lt_of_lt_of_le (Nat.lt_of_lt_of_le ha2 hle) hb1)
  refine ⟨?_, ?_, range_cover_iff n Nthreads, ?_⟩
  · intro a b _ _ hab j
    rcases Nat.lt_or_ge a b with h | h
    · exact hdisj a b h j
    · have hba : b < a := by omega
      intro ⟨h1, h2⟩
      exact hdisj b a hba j ⟨h2, h1⟩
  · intro ID
    exact thread_stop_sub_start n Nthreads ID
  · intro hdvd j
    rw [range_cover_iff n Nthreads j, ratio, Nat.div_mul_cancel hdvd]

/-- C3, amended, witness at `n = 4`, `Nthreads = 2`. -/
theorem c3_partition_amended_witness :
    (1 ≤ 4 ∧ 1 ≤ 2) ∧
      ((∀ a b, a < 2 → b < 2 → a ≠ b →
        ∀ j, ¬ (inThreadRange 4 2 a j ∧ inThreadRange 4 2 b j)) ∧
      (∀ ID, thread_stop 4 2 ID - thread_start 4 2 ID = ratio 4 2) ∧
      (∀ j, (∃ ID, ID < 2 ∧ inThreadRange 4 2 ID j) ↔ j < ratio 4 2 * 2) ∧
      (2 ∣ 4 → ∀ j, (∃ ID, ID < 2 ∧ inThreadRange 4 2 ID j) ↔ j < 4)) :=
  ⟨⟨by decide, by decide⟩, c3_partition_amended 4 2 (by decide) (by decide)⟩

theorem countOp_append (op : GpuOp) (l1 l2 : List GpuOp) :
    countOp op (l1 ++ l2) = countOp op l1 + countOp op l2 := by
  induction l1 with
  | nil => simp [countOp]
  | cons o rest ih => simp [countOp, ih]; omega

theorem countOp_flatten_replicate (op : GpuOp) (k : Nat) (l : List GpuOp) :
    countOp op (List.replicate k l).flatten = k * countOp op l := by
  induction k with
  | zero => simp [countOp]
  | succ m ih =>
    rw [List.replicate_succ, List.flatten_cons, countOp_append, ih, Nat.succ_mul]
    omega

theorem all_append_flatten_replicate (p : GpuOp → Bool) (k : Nat) (l : List GpuOp)
    (h : l.all p = true) : (List.replicate k l).flatten.all p = true := by
  induction k with
  | zero => simp
  | succ m ih => rw [List.replicate_succ, List.flatten_cons, List.all_append, h, ih]; rfl

/-- C5, counterexample: the second GPU path does NOT re-allocate its
buffers on every outer iteration: with `k = 2` iterations its trace
contains exactly one allocation of `buffer_A2` (before the loop), not one
per iteration. -/
theorem c5_no_realloc_per_iteration :
    countOp (GpuOp.alloc "buffer_A2") (gpuTrace2 2) = 1 ∧
    ¬ 2 ≤ countOp (GpuOp.alloc "buffer_A2") (gpuTrace2 2) := by
  decide

/-- C5, amended: the first timed GPU path allocates each of its four
device buffers exactly once and launches `looped_add` (which loops `k`
times internally) exactly once, never launching `add`; the second path
also allocates each of its four buffers exactly once — before its loop —
and then on every one of its `k` outer iterations re-uploads `A`, `B`
and the constants and launches `add`, reading the result back once at
the end. -/
theorem c5_paths_structure (k : Nat) :
    (countOp (GpuOp.alloc "buffer_A") gpuTrace1 = 1 ∧
     countOp (GpuOp.alloc "buffer_B") gpuTrace1 = 1 ∧
     countOp (GpuOp.alloc "buffer_C") gpuTrace1 = 1 ∧
     countOp (GpuOp.alloc "buffer_constants") gpuTrace1 = 1 ∧
     countOp (GpuOp.launch "looped_add") gpuTrace1 = 1 ∧
     countOp (GpuOp.launch "add") gpuTrace1 = 0 ∧
     countOp (GpuOp.read "buffer_C" true) gpuTrace1 = 1) ∧
    (countOp (GpuOp.alloc "buffer_A2") (gpuTrace2 k) = 1 ∧
     countOp (GpuOp.alloc "buffer_B2") (gpuTrace2 k) = 1 ∧
     countOp (GpuOp.alloc "buffer_C2") (gpuTrace2 k) = 1 ∧
     countOp (GpuOp.alloc "buffer_constants2") (gpuTrace2 k) = 1 ∧
     countOp (GpuOp.write "buffer_A2" true) (gpuTrace2 k) = k ∧
     countOp (GpuOp.write "buffer_B2" true) (gpuTrace2 k) = k ∧
     countOp (GpuOp.write "buffer_constants2" true) (gpuTrace2 k) = k ∧
     countOp (GpuOp.launch "add") (gpuTrace2 k) = k ∧
     countOp (GpuOp.launch "looped_add") (gpuTrace2 k) = 0 ∧
     countOp (GpuOp.read "buffer_C2" true) (gpuTrace2 k) = 1) := by
  refine ⟨by decide, ?_, ?_, ?_, ?_, ?_, ?_, ?_, ?_, ?_, ?_⟩ <;>
    simp [gpuTrace2, gpuIter2, countOp_append, countOp_flatten_replicate, countOp]

/-- C9, counterexample: not every device-queue operation the host issues
carries a blocking flag: the `looped_add` kernel launch is a queue
operation, and a `cl::KernelFunctor` call has no blocking flag at all, so
it is not forced synchronous by passing one. -/
theorem c9_launch_has_no_blocking_flag :
    GpuOp.launch "looped_add" ∈ gpuTrace1 ∧
    isQueueOp (GpuOp.launch "looped_add") = true ∧
    blockingFlag (GpuOp.launch "looped_add") ≠ some true := by
  decide

/-- C9, amended: every buffer write and every buffer read either GPU path
issues passes the blocking flag `CL_TRUE` (so those operations are
synchronous), while kernel launches carry no blocking flag at all — the
launches are enqueued without one, and only the subsequent blocking read
orders the host after them. -/
theorem c9_blocking_flags (k : Nat) :
    gpuTrace1.all flagsOk = true ∧
    (gpuTrace2 k).all flagsOk = true ∧
    (∀ kern : String, blockingFlag (GpuOp.launch kern) = none) ∧
    (∀ buf : String, ∀ b : Bool, blockingFlag (GpuOp.write buf b) = some b) ∧
    (∀ buf : String, ∀ b : Bool, blockingFlag (GpuOp.read buf b) = some b) := by
  refine ⟨by decide, ?_, fun _ => rfl, fun _ _ => rfl, fun _ _ => rfl⟩
  simp only [gpuTrace2, List.all_append]
  rw [all_append_flatten_replicate flagsOk k gpuIter2 (by decide)]
  decide

/-- C7, witness: `n = 2`, `k = 1`, one work-item, concrete vectors. -/
theorem c7_looped_add_equiv_add_witness :
    1 ≤ 1 ∧
      run_looped_add 1 (fun i => (i : Int)) (fun _ => 3) (fun _ => 0) [2, ((1 : Nat) : Int)] =
        run_add 1 (fun i => (i : Int)) (fun _ => 3) (fun _ => 0) [2, ((1 : Nat) : Int)] :=
  ⟨le_refl 1,
    c7_looped_add_equiv_add 2 1 (le_refl 1) 1 (fun i => (i : Int)) (fun _ => 3) (fun _ => 0)⟩

/-- C8: for each of the two GPU variants the program computes
`time_ratio = CPUtime / GPUtime` and prints the banner, the CPU time,
that variant's GPU time, and then the ratio followed by
`" times faster!"` when `time_ratio > 1` and otherwise
(`time_ratio ≤ 1`) the ratio followed by `" times slower :("`;
the whole printout is the version-1 report followed by the
version-2 report. -/
theorem c8_report_spec (c g1 g2 : ℚ) :
    (report c g1 g2 =
      reportVariant "VERSION 1 -----------" c g1 ++
        reportVariant "\nVERSION 2 -----------" c g2) ∧
    (1 < c / g1 → reportVariant "VERSION 1 -----------" c g1 =
      [OutItem.str "VERSION 1 -----------", OutItem.str "CPU time: ", OutItem.num c,
       OutItem.str "GPU time: ", OutItem.num g1, OutItem.str "GPU is ",
       OutItem.num (c / g1), OutItem.str " times faster!"]) ∧
    (c / g1 ≤ 1 → reportVariant "VERSION 1 -----------" c g1 =
      [OutItem.str "VERSION 1 -----------", OutItem.str "CPU time: ", OutItem.num c,
       OutItem.str "GPU time: ", OutItem.num g1, OutItem.str "GPU is ",
       OutItem.num (c / g1), OutItem.str " times slower :("]) ∧
    (1 < c / g2 → reportVariant "\nVERSION 2 -----------" c g2 =
      [OutItem.str "\nVERSION 2 -----------", OutItem.str "CPU time: ", OutItem.num c,
       OutItem.str "GPU time: ", OutItem.num g2, OutItem.str "GPU is ",
       OutItem.num (c / g2), OutItem.str " times faster!"]) ∧
    (c / g2 ≤ 1 → reportVariant "\nVERSION 2 -----------" c g2 =
      [OutItem.str "\nVERSION 2 -----------", OutItem.str "CPU time: ", OutItem.num c,
       OutItem.str "GPU time: ", OutItem.num g2, OutItem.str "GPU is ",
       OutItem.num (c / g2), OutItem.str " times slower :("]) := by
  refine ⟨rfl, ?_, ?_, ?_, ?_⟩ <;> intro h
  · rw [reportVariant, if_pos h]; rfl
  · rw [reportVariant, if_neg (not_lt.mpr h)]; rfl
  · rw [reportVariant, if_pos h]; rfl
  · rw [reportVariant, if_neg (not_lt.mpr h)]; rfl

/-- C8, witness: `CPUtime = 3`, `GPUtime1 = 1` (faster branch),
`GPUtime2 = 12` (slower branch). -/
theorem c8_report_spec_witness :
    (1 < (3 : ℚ) / 1 ∧ (3 : ℚ) / 12 ≤ 1) ∧
      (reportVariant "VERSION 1 -----------" 3 1 =
        [OutItem.str "VERSION 1 -----------", OutItem.str "CPU time: ", OutItem.num 3,
         OutItem.str "GPU time: ", OutItem.num 1, OutItem.str "GPU is ",
         OutItem.num ((3 : ℚ) / 1), OutItem.str " times faster!"] ∧
       reportVariant "\nVERSION 2 -----------" 3 12 =
        [OutItem.str "\nVERSION 2 -----------", OutItem.str "CPU time: ", OutItem.num 3,
         OutItem.str "GPU time: ", OutItem.num 12, OutItem.str "GPU is ",
         OutItem.num ((3 : ℚ) / 12), OutItem.str " times slower :("]) :=
  ⟨⟨by norm_num, by norm_num⟩,
    (c8_report_spec 3 1 12).2.1 (by norm_num),
    (c8_report_spec 3 1 12).2.2.2.2 (by norm_num)⟩

/-- C10: the constants buffer `main` shares with the kernels is the
two-element integer array `{n, k} = {100000, 1000}` — vector length
first, then iteration count — with `Nthreads = 10` also compiled in;
the `add` kernel's behaviour depends on the constants buffer only
through element 0 (its `n`), and the `looped_add` kernel's behaviour
only through elements 0 and 1 (its `n` and its `k`). -/
theorem c10_constants_layout :
    constantsArr = [(100000 : Int), (1000 : Int)] ∧
    constantsArr.length = 2 ∧
    constantsArr.getD 0 0 = (n_main : Int) ∧
    constantsArr.getD 1 0 = (k_main : Int) ∧
    n_main = 100000 ∧ k_main = 1000 ∧ Nthreads_main = 10 ∧
    (∀ c1 c2 : List Int, c1.getD 0 0 = c2.getD 0 0 →
      ∀ (ID Nthreads : Nat) (v1 v2 v3 : Nat → Int),
        add_thread ID Nthreads v1 v2 v3 c1 = add_thread ID Nthreads v1 v2 v3 c2) ∧
    (∀ c1 c2 : List Int, c1.getD 0 0 = c2.getD 0 0 → c1.getD 1 0 = c2.getD 1 0 →
      ∀ (ID Nthreads : Nat) (v1 v2 v3 : Nat → Int),
        looped_add_thread ID Nthreads v1 v2 v3 c1 =
          looped_add_thread ID Nthreads v1 v2 v3 c2) := by
  refine ⟨rfl, rfl, rfl, rfl, rfl, rfl, rfl, ?_, ?_⟩
  · intro c1 c2 h ID Nthreads v1 v2 v3
    simp only [add_thread, h]
  · intro c1 c2 h0 h1 ID Nthreads v1 v2 v3
    simp only [looped_add_thread, h0, h1]

/-- C10, witness: the `add` kernel gives the same result on two constants
buffers that agree at element 0, and `looped_add` on two buffers that
agree at elements 0 and 1, at concrete inputs. -/
theorem c10_constants_layout_witness :
    (([5] : List Int).getD 0 0 = ([5, 9] : List Int).getD 0 0 ∧
     ([5, 9] : List Int).getD 0 0 = ([5, 9, 7] : List Int).getD 0 0 ∧
     ([5, 9] : List Int).getD 1 0 = ([5, 9, 7] : List Int).getD 1 0) ∧
      (add_thread 0 1 (fun i => (i : Int)) (fun _ => 2) (fun _ => 0) [5] =
        add_thread 0 1 (fun i => (i : Int)) (fun _ => 2) (fun _ => 0) [5, 9] ∧
       looped_add_thread 0 1 (fun i => (i : Int)) (fun _ => 2) (fun _ => 0) [5, 9] =
        looped_add_thread 0 1 (fun i => (i : Int)) (fun _ => 2) (fun _ => 0) [5, 9, 7]) :=
  ⟨⟨by decide, by decide, by decide⟩,
    c10_constants_layout.2.2.2.2.2.2.2.1 [5] [5, 9] (by decide) 0 1
      (fun i => (i : Int)) (fun _ => 2) (fun _ => 0),
    c10_constants_layout.2.2.2.2.2.2.2.2 [5, 9] [5, 9, 7] (by decide) (by decide) 0 1
      (fun i => (i : Int)) (fun _ => 2) (fun _ => 0)⟩

end Example01
